import Mathlib

/-!
# GradeTrack storage layer — shallow embedding

This file embeds the data-access layer of the GradeTrack repository
(`server/storage.ts`, present in two revisions: the baseline one and a
stricter one that adds duplicate checks) together with the relevant REST
handlers, and proves properties of the embedded operations.

Modelling conventions:
* Database tables are Lean lists of records; drizzle queries
  (`select`/`innerJoin`/`leftJoin`/`where`/`orderBy`) become list
  `filter`/`flatMap`/sort operations with the same join conditions.
* JavaScript numbers are modelled by `JSNum`: a rational together with the
  special values `Infinity`, `-Infinity` and `NaN`, so that the behaviour of
  `(pointsEarned / totalPoints) * 100` at `totalPoints = 0` is captured
  exactly.  Decimal database columns hold rationals (they can never hold the
  special values).
* `undefined`/`null` of optional columns and of partial update payloads are
  modelled with `Option` (one level for nullable columns, two levels for
  "field absent from the payload" vs "field explicitly null").
-/

namespace GradeTrack

/-- A JavaScript number: either a finite rational or one of the IEEE special
values produced by e.g. division by zero. -/
inductive JSNum where
  | num (q : ℚ)
  | posInf
  | negInf
  | nan
deriving DecidableEq, Repr

/-- JavaScript `x >= c` for a numeric literal `c` (false on `NaN`). -/
def JSNum.geC (x : JSNum) (c : ℚ) : Bool :=
  match x with
  | .num q => decide (c ≤ q)
  | .posInf => true
  | .negInf => false
  | .nan => false

/-- JavaScript division of finite numbers: `p / 0` is `±Infinity` (or `NaN`
for `0 / 0`). -/
def jsDivQ (p t : ℚ) : JSNum :=
  if t = 0 then
    if 0 < p then .posInf else if p < 0 then .negInf else .nan
  else .num (p / t)

/-- JavaScript multiplication by the literal `100`. -/
def JSNum.mul100 : JSNum → JSNum
  | .num q => .num (q * 100)
  | .posInf => .posInf
  | .negInf => .negInf
  | .nan => .nan

/-- JavaScript addition. -/
def JSNum.add : JSNum → JSNum → JSNum
  | .nan, _ => .nan
  | _, .nan => .nan
  | .posInf, .negInf => .nan
  | .negInf, .posInf => .nan
  | .posInf, _ => .posInf
  | _, .posInf => .posInf
  | .negInf, _ => .negInf
  | _, .negInf => .negInf
  | .num a, .num b => .num (a + b)

/-- JavaScript division by a finite number. -/
def JSNum.divQ : JSNum → ℚ → JSNum
  | .num p, t => jsDivQ p t
  | .posInf, t => if t < 0 then .negInf else .posInf
  | .negInf, t => if t < 0 then .posInf else .negInf
  | .nan, _ => .nan

/-- JavaScript `Math.round` (round half toward positive infinity). -/
def JSNum.round : JSNum → JSNum
  | .num q => .num (⌊q + 1/2⌋ : ℤ)
  | .posInf => .posInf
  | .negInf => .negInf
  | .nan => .nan

/-- JavaScript `Number(x) || 0` applied to a nullable numeric value:
`null` and `NaN` (and `0` itself) collapse to `0`. -/
def orZero : Option JSNum → JSNum
  | none => .num 0
  | some .nan => .num 0
  | some v => v

/-- JavaScript `Number(x)` applied to a nullable numeric value
(`Number(null) = 0`). -/
def jsNumber : Option ℚ → ℚ
  | none => 0
  | some q => q

/-- `DatabaseStorage.getLetterGrade`: the fixed ordered threshold table,
first match (from the highest threshold) wins. -/
def getLetterGrade (percentage : JSNum) : String :=
  if percentage.geC 97 then "A+" else
  if percentage.geC 93 then "A" else
  if percentage.geC 90 then "A-" else
  if percentage.geC 87 then "B+" else
  if percentage.geC 83 then "B" else
  if percentage.geC 80 then "B-" else
  if percentage.geC 77 then "C+" else
  if percentage.geC 73 then "C" else
  if percentage.geC 70 then "C-" else
  if percentage.geC 67 then "D+" else
  if percentage.geC 63 then "D" else
  if percentage.geC 60 then "D-" else "F"

/-! ## Entity rows (shared/schema.ts; only the columns the storage logic
reads are carried). -/

/-- A row of the `students` table. -/
structure Student where
  id : String
  studentId : String
  firstName : String
  lastName : String
  email : Option String
deriving DecidableEq, Repr

/-- A row of the `classes` table (`teacherId` references `users.id`). -/
structure Class where
  id : String
  teacherId : String
deriving DecidableEq, Repr

/-- A row of the `assignments` table (`totalPoints` is a non-null decimal
column, hence a plain rational). -/
structure Assignment where
  id : String
  classId : String
  totalPoints : ℚ
deriving DecidableEq, Repr

/-- A row of the `grades` table.  `percentage` is written back from the
JavaScript computation, so it is modelled as a nullable `JSNum`;
`gradedAt` is a timestamp used for ordering. -/
structure Grade where
  id : String
  studentId : String
  assignmentId : String
  pointsEarned : Option ℚ
  percentage : Option JSNum
  letterGrade : Option String
  gradedAt : Nat
deriving DecidableEq, Repr

/-- A row of the `enrollments` table. -/
structure Enrollment where
  id : String
  studentId : String
  classId : String
deriving DecidableEq, Repr

/-- The database state: one list per table. -/
structure DB where
  students : List Student
  classes : List Class
  assignments : List Assignment
  grades : List Grade
  enrollments : List Enrollment
deriving DecidableEq, Repr

/-! ## Grade creation (`DatabaseStorage.createGrade`, baseline revision) -/

/-- The `InsertGrade` payload for `createGrade` (the generated id and the
`gradedAt` default are passed in explicitly since the embedding has no
`gen_random_uuid()`/`defaultNow()`). -/
structure InsertGrade where
  id : String
  studentId : String
  assignmentId : String
  pointsEarned : Option ℚ
  percentage : Option JSNum := none
  letterGrade : Option String := none
  gradedAt : Nat
deriving DecidableEq, Repr

/-- Convert the (possibly enriched) insert payload to a stored row. -/
def InsertGrade.toRow (g : InsertGrade) : Grade :=
  ⟨g.id, g.studentId, g.assignmentId, g.pointsEarned, g.percentage, g.letterGrade, g.gradedAt⟩

/-- `DatabaseStorage.createGrade` (baseline revision, storage.ts): looks up
the assignment; if it exists and `pointsEarned` is not null, computes
`percentage = (pointsEarned / totalPoints) * 100` and the letter grade, then
inserts the row.  There is no check for `totalPoints = 0` and no duplicate
check. -/
def createGrade (db : DB) (g : InsertGrade) : DB × Grade :=
  let g' :=
    match db.assignments.find? (fun a => a.id == g.assignmentId), g.pointsEarned with
    | some a, some p =>
      let pct := (jsDivQ p a.totalPoints).mul100
      { g with percentage := some pct, letterGrade := some (getLetterGrade pct) }
    | _, _ => g
  ({ db with grades := db.grades ++ [g'.toRow] }, g'.toRow)

/-- `DatabaseStorage.createGrade` (stricter revision): first rejects when a
grade for the same `(studentId, assignmentId)` pair already exists, then
proceeds exactly like the baseline revision. -/
def createGradeStrict (db : DB) (g : InsertGrade) : Except String (DB × Grade) :=
  let existing := db.grades.filter
    (fun r => r.studentId == g.studentId && r.assignmentId == g.assignmentId)
  if existing.length > 0 then
    .error "Grade already exists for this student and assignment."
  else
    .ok (createGrade db g)

/-! ## View objects -/

/-- An enrollment joined with its class (`enrollments` entry of
`StudentWithGrades`). -/
structure EnrollmentWithClass where
  enrollment : Enrollment
  cls : Class
deriving DecidableEq, Repr

/-- A grade joined with its assignment (`grades` entry of
`StudentWithGrades`). -/
structure GradeWithAssignment where
  grade : Grade
  assignment : Assignment
deriving DecidableEq, Repr

/-- The computed overall `currentGrade` summary. -/
structure CurrentGrade where
  percentage : JSNum
  letterGrade : String
deriving DecidableEq, Repr

/-- The `StudentWithGrades` view object. -/
structure StudentWithGrades where
  student : Student
  enrollments : List EnrollmentWithClass
  grades : List GradeWithAssignment
  currentGrade : Option CurrentGrade
deriving DecidableEq, Repr

/-- A grade joined with its student, assignment and class
(`GradeWithDetails`). -/
structure GradeWithDetails where
  grade : Grade
  student : Student
  assignment : Assignment
  cls : Class
deriving DecidableEq, Repr

/-! ## `DatabaseStorage.getStudents` (baseline revision)

The SQL query is
`students LEFT JOIN enrollments ON students.id = enrollments.studentId
LEFT JOIN classes ON enrollments.classId = classes.id`, optionally filtered
by `classes.teacherId = teacherId` and by the free-text search condition;
the rows are then grouped back into one `StudentWithGrades` per student id
(a JavaScript `Map` keyed by `student.id`, insertion order), and a second
query per student fetches the grades and computes `currentGrade`. -/

/-- One row of the left-joined `students × enrollments × classes` query. -/
structure SRow where
  student : Student
  enrollment : Option Enrollment
  cls : Option Class
deriving DecidableEq, Repr

/-- The left-join rows contributed by one student: one row per
(enrollment, class) match; a row with null enrollment/class when the student
has no enrollments; a row with null class when an enrollment's class id has
no matching class row. -/
def rowsForStudent (db : DB) (s : Student) : List SRow :=
  let es := db.enrollments.filter (fun e => e.studentId == s.id)
  if es.isEmpty then [⟨s, none, none⟩]
  else es.flatMap (fun e =>
    let cs := db.classes.filter (fun c => c.id == e.classId)
    if cs.isEmpty then [⟨s, some e, none⟩]
    else cs.map (fun c => ⟨s, some e, some c⟩))

/-- All rows of the left-joined base query, in table order. -/
def joinedRows (db : DB) : List SRow :=
  db.students.flatMap (rowsForStudent db)

/-- Case-sensitive SQL `LIKE '%q%'` on a character list. -/
def likeChars (pat : List Char) : List Char → Bool
  | [] => pat.isEmpty
  | c :: cs => pat.isPrefixOf (c :: cs) || likeChars pat cs

/-- SQL `column LIKE '%q%'` on a string column. -/
def likeStr (s q : String) : Bool := likeChars q.toList s.toList

/-- SQL `column LIKE '%q%'` on a nullable column (`NULL` never matches). -/
def likeOpt (s : Option String) (q : String) : Bool :=
  match s with
  | none => false
  | some s => likeStr s q

/-- The free-text search condition of `getStudents`: the one query string is
matched against first name OR last name OR email OR the student identifier. -/
def studentMatch (sq : Option String) (s : Student) : Bool :=
  match sq with
  | none => true
  | some q =>
    likeStr s.firstName q || likeStr s.lastName q ||
      likeOpt s.email q || likeStr s.studentId q

/-- The `WHERE` condition of the `getStudents` base query.  The teacher
condition `classes.teacherId = teacherId` compares a left-joined column, so a
row whose class is `NULL` never satisfies it. -/
def rowCond (tid sq : Option String) (r : SRow) : Bool :=
  (match tid with
   | none => true
   | some t => match r.cls with
     | some c => c.teacherId == t
     | none => false) &&
  studentMatch sq r.student

/-- A grouped entry: the first-seen student row plus its accumulated
enrollment entries. -/
structure SEntry where
  student : Student
  enrollments : List EnrollmentWithClass
deriving DecidableEq, Repr

/-- The enrollment entry pushed for a row: only rows whose enrollment AND
class are non-null contribute (`if (row.enrollment && row.class)`). -/
def enrollOf (r : SRow) : List EnrollmentWithClass :=
  match r.enrollment, r.cls with
  | some e, some c => [⟨e, c⟩]
  | _, _ => []

/-- One step of the `studentMap` grouping loop. -/
def insertRow (acc : List SEntry) (r : SRow) : List SEntry :=
  if acc.any (fun p => p.student.id == r.student.id) then
    acc.map (fun p =>
      if p.student.id == r.student.id then ⟨p.student, p.enrollments ++ enrollOf r⟩
      else p)
  else acc ++ [⟨r.student, enrollOf r⟩]

/-- The grouping loop over all result rows (a `Map` keyed by `student.id`,
preserving insertion order). -/
def groupRows (rows : List SRow) : List SEntry :=
  rows.foldl insertRow []

/-- The per-student secondary query:
`grades INNER JOIN assignments ON grades.assignmentId = assignments.id
WHERE grades.studentId = sid`. -/
def gradesForStudent (db : DB) (sid : String) : List GradeWithAssignment :=
  (db.grades.filter (fun g => g.studentId == sid)).flatMap (fun g =>
    (db.assignments.filter (fun a => a.id == g.assignmentId)).map
      (fun a => ⟨g, a⟩))

/-- The `currentGrade` computation: if there is at least one grade, the
percentage is `Math.round` of the mean of `Number(g.percentage) || 0` and
the letter grade is taken of the unrounded mean; otherwise absent. -/
def currentGradeOf (gs : List GradeWithAssignment) : Option CurrentGrade :=
  if gs.isEmpty then none
  else
    let total := gs.foldl (fun (sum : JSNum) g => sum.add (orZero g.grade.percentage)) (JSNum.num 0)
    let avg := total.divQ gs.length
    some ⟨avg.round, getLetterGrade avg⟩

/-- Attach grades and `currentGrade` to a grouped entry. -/
def enrich (db : DB) (p : SEntry) : StudentWithGrades :=
  let gs := gradesForStudent db p.student.id
  ⟨p.student, p.enrollments, gs, currentGradeOf gs⟩

/-- `DatabaseStorage.getStudents` (baseline revision). -/
def getStudents (db : DB) (tid sq : Option String) : List StudentWithGrades :=
  (groupRows ((joinedRows db).filter (rowCond tid sq))).map (enrich db)

/-- `DatabaseStorage.getStudent` (baseline revision): the single-student
assembler; absent when no student row matches. -/
def getStudent (db : DB) (id : String) : Option StudentWithGrades :=
  match db.students.find? (fun s => s.id == id) with
  | none => none
  | some s =>
    let es := (db.enrollments.filter (fun e => e.studentId == id)).flatMap (fun e =>
      (db.classes.filter (fun c => c.id == e.classId)).map
        (fun c => EnrollmentWithClass.mk e c))
    let gs := gradesForStudent db id
    some ⟨s, es, gs, currentGradeOf gs⟩

/-! ## `DatabaseStorage.getGrades` -/

/-- The filters record built by the `GET /api/grades` route handler: it also
carries a `teacherId` (set for teacher callers), but `getGrades` only ever
reads `studentId`, `assignmentId` and `classId`. -/
structure GradeFilters where
  studentId : Option String := none
  assignmentId : Option String := none
  classId : Option String := none
  teacherId : Option String := none
deriving DecidableEq, Repr

/-- Descending insertion into a list sorted by `gradedAt` (models
`ORDER BY grades.gradedAt DESC`). -/
def insertByGradedAtDesc (x : GradeWithDetails) : List GradeWithDetails → List GradeWithDetails
  | [] => [x]
  | y :: ys =>
    if x.grade.gradedAt ≤ y.grade.gradedAt then y :: insertByGradedAtDesc x ys
    else x :: y :: ys

/-- Sort by `gradedAt` descending. -/
def sortByGradedAtDesc (l : List GradeWithDetails) : List GradeWithDetails :=
  l.foldr insertByGradedAtDesc []

/-- `DatabaseStorage.getGrades`: `grades INNER JOIN students INNER JOIN
assignments INNER JOIN classes`, filtered by the student/assignment/class
conditions that are present, ordered by `gradedAt` descending.  The
`teacherId` member of the filters record is not consulted. -/
def getGrades (db : DB) (f : GradeFilters) : List GradeWithDetails :=
  let joined := db.grades.flatMap (fun g =>
    (db.students.filter (fun s => s.id == g.studentId)).flatMap (fun s =>
      (db.assignments.filter (fun a => a.id == g.assignmentId)).flatMap (fun a =>
        (db.classes.filter (fun c => c.id == a.classId)).map
          (fun c => GradeWithDetails.mk g s a c))))
  let cond := fun (r : GradeWithDetails) =>
    (match f.studentId with | none => true | some v => r.grade.studentId == v) &&
    (match f.assignmentId with | none => true | some v => r.grade.assignmentId == v) &&
    (match f.classId with | none => true | some v => r.cls.id == v)
  sortByGradedAtDesc (joined.filter cond)

/-! ## Update operations (baseline revision)

A `Partial` payload is modelled with one `Option` level for "field present
in the payload"; nullable columns get a second level for an explicit null. -/

/-- `Partial` payload of `updateGrade`. -/
structure UpdateGrade where
  studentId : Option String := none
  assignmentId : Option String := none
  pointsEarned : Option (Option ℚ) := none
  percentage : Option (Option JSNum) := none
  letterGrade : Option (Option String) := none
deriving DecidableEq, Repr

/-- The `{ ...grade }` spread in `db.update(grades).set(...)`: fields present
in the payload overwrite the row, the rest keep their stored value. -/
def applyGradeUpdate (r : Grade) (p : UpdateGrade) : Grade where
  id := r.id
  studentId := p.studentId.getD r.studentId
  assignmentId := p.assignmentId.getD r.assignmentId
  pointsEarned := p.pointsEarned.getD r.pointsEarned
  percentage := p.percentage.getD r.percentage
  letterGrade := p.letterGrade.getD r.letterGrade
  gradedAt := r.gradedAt

/-- `DatabaseStorage.updateGrade`: when `pointsEarned` is part of the payload
(`!== undefined`, so an explicit null also counts), the percentage and letter
grade are recomputed from the assignment already linked to the *existing*
grade row; then the row with the given id (if any) is overwritten and
returned (`undefined` when no row matches). -/
def updateGrade (db : DB) (id : String) (p : UpdateGrade) : DB × Option Grade :=
  let p' :=
    match p.pointsEarned with
    | none => p
    | some pv =>
      match db.grades.find? (fun r => r.id == id) with
      | none => p
      | some r =>
        match db.assignments.find? (fun a => a.id == r.assignmentId) with
        | none => p
        | some a =>
          let pct := (jsDivQ (jsNumber pv) a.totalPoints).mul100
          { p with percentage := some (some pct),
                   letterGrade := some (some (getLetterGrade pct)) }
  ({ db with grades := db.grades.map (fun r => if r.id == id then applyGradeUpdate r p' else r) },
   (db.grades.find? (fun r => r.id == id)).map (fun r => applyGradeUpdate r p'))

/-- `Partial` payload of `updateStudent`. -/
structure UpdateStudent where
  studentId : Option String := none
  firstName : Option String := none
  lastName : Option String := none
  email : Option (Option String) := none
deriving DecidableEq, Repr

/-- Field-wise update of a student row. -/
def applyStudentUpdate (r : Student) (p : UpdateStudent) : Student where
  id := r.id
  studentId := p.studentId.getD r.studentId
  firstName := p.firstName.getD r.firstName
  lastName := p.lastName.getD r.lastName
  email := p.email.getD r.email

/-- `DatabaseStorage.updateStudent` (baseline revision): overwrite the row
with the given id if any, returning it (`undefined` when no row matches). -/
def updateStudent (db : DB) (id : String) (p : UpdateStudent) : DB × Option Student :=
  ({ db with students := db.students.map (fun r => if r.id == id then applyStudentUpdate r p else r) },
   (db.students.find? (fun r => r.id == id)).map (fun r => applyStudentUpdate r p))

/-- `Partial` payload of `updateClass`. -/
structure UpdateClass where
  teacherId : Option String := none
deriving DecidableEq, Repr

/-- Field-wise update of a class row. -/
def applyClassUpdate (r : Class) (p : UpdateClass) : Class where
  id := r.id
  teacherId := p.teacherId.getD r.teacherId

/-- `DatabaseStorage.updateClass`. -/
def updateClass (db : DB) (id : String) (p : UpdateClass) : DB × Option Class :=
  ({ db with classes := db.classes.map (fun r => if r.id == id then applyClassUpdate r p else r) },
   (db.classes.find? (fun r => r.id == id)).map (fun r => applyClassUpdate r p))

/-- `Partial` payload of `updateAssignment`. -/
structure UpdateAssignment where
  classId : Option String := none
  totalPoints : Option ℚ := none
deriving DecidableEq, Repr

/-- Field-wise update of an assignment row. -/
def applyAssignmentUpdate (r : Assignment) (p : UpdateAssignment) : Assignment where
  id := r.id
  classId := p.classId.getD r.classId
  totalPoints := p.totalPoints.getD r.totalPoints

/-- `DatabaseStorage.updateAssignment`. -/
def updateAssignment (db : DB) (id : String) (p : UpdateAssignment) : DB × Option Assignment :=
  ({ db with assignments := db.assignments.map (fun r => if r.id == id then applyAssignmentUpdate r p else r) },
   (db.assignments.find? (fun r => r.id == id)).map (fun r => applyAssignmentUpdate r p))

/-! ## Enrollment operations -/

/-- `DatabaseStorage.getStudentEnrollments`. -/
def getStudentEnrollments (db : DB) (sid : String) : List Enrollment :=
  db.enrollments.filter (fun e => e.studentId == sid)

/-- `DatabaseStorage.enrollStudent`: a plain insert, no duplicate check. -/
def enrollStudent (db : DB) (e : Enrollment) : DB × Enrollment :=
  ({ db with enrollments := db.enrollments ++ [e] }, e)

/-- The `POST /api/enrollments` route handler: rejects with HTTP 400 when
`getStudentEnrollments` already reports the class, otherwise inserts
(`newId` stands for the generated row id). -/
def postEnrollment (db : DB) (sid cid newId : String) : Except String (DB × Enrollment) :=
  if (getStudentEnrollments db sid).any (fun e => e.classId == cid) then
    .error "Student already enrolled in this class"
  else
    .ok (enrollStudent db ⟨newId, sid, cid⟩)

/-! ## Dashboard statistics: the `averageGrade` computation

Both revisions run
`SELECT avg(grades.percentage) FROM grades INNER JOIN assignments INNER JOIN
classes WHERE [classes.teacherId = teacherId]`; SQL `avg` ignores `NULL`
percentages and is itself `NULL` when no non-null value is in scope (the
decimal column only ever holds finite numerics). -/

/-- The in-scope non-null grade percentages. -/
def scopedPercentages (db : DB) (tid : Option String) : List ℚ :=
  (db.grades.flatMap (fun g =>
    (db.assignments.filter (fun a => a.id == g.assignmentId)).flatMap (fun a =>
      (db.classes.filter (fun c => c.id == a.classId &&
        (match tid with | none => true | some t => c.teacherId == t))).map
        (fun _ => g)))).filterMap
    (fun g => match g.percentage with
      | some (.num q) => some q
      | _ => none)

/-- SQL `avg`: `NULL` (absent) when there is no value. -/
def sqlAvg (vals : List ℚ) : Option ℚ :=
  if vals.isEmpty then none else some (vals.sum / vals.length)

/-- The `averageGrade` field of `getDashboardStats` in the baseline revision:
`avgGradeQuery[0]?.avg || 0` collapses an absent average to `0`, which is
then letter-graded. -/
def averageGradeBase (db : DB) (tid : Option String) : String :=
  getLetterGrade (.num ((sqlAvg (scopedPercentages db tid)).getD 0))

/-- The `averageGrade` field of `getDashboardStats` in the stricter revision:
an absent average yields the placeholder string. -/
def averageGradeStrict (db : DB) (tid : Option String) : String :=
  match sqlAvg (scopedPercentages db tid) with
  | none => "-"
  | some q => getLetterGrade (.num q)

/-! ## Claim-side predicates -/

/-- Extract the percentages of a grade list when every grade has a finite
stored percentage (the normal state of the decimal column). -/
def finitePercs : List GradeWithAssignment → Option (List ℚ)
  | [] => some []
  | g :: gs =>
    match g.grade.percentage, finitePercs gs with
    | some (.num q), some qs => some (q :: qs)
    | _, _ => none

/-- The claimed `currentGrade` contract for a returned student view: absent
for zero grades; otherwise `Math.round` of the mean of the percentage
values, with the letter grade taken of the unrounded mean. -/
def currentGradeSpec (sw : StudentWithGrades) : Prop :=
  (sw.grades = [] → sw.currentGrade = none) ∧
  ∀ qs, finitePercs sw.grades = some qs → sw.grades ≠ [] →
    sw.currentGrade = some ⟨.num (⌊qs.sum / qs.length + 1/2⌋ : ℤ),
      getLetterGrade (.num (qs.sum / qs.length))⟩

/-- The claimed teacher scope for student listing: with no `teacherId`, all
students; otherwise only students enrolled in at least one class owned by
that teacher. -/
def teacherScopeOk (db : DB) (tid : Option String) (s : Student) : Bool :=
  match tid with
  | none => true
  | some t => db.enrollments.any (fun e => e.studentId == s.id &&
      db.classes.any (fun c => c.id == e.classId && c.teacherId == t))

/-- The claim-side description of a returned student's enrollment entries:
all of the student's enrollment rows joined with their class, restricted to
the teacher scope when present. -/
def scopedEnrollments (db : DB) (tid : Option String) (sid : String) :
    List EnrollmentWithClass :=
  (db.enrollments.filter (fun e => e.studentId == sid)).flatMap (fun e =>
    (db.classes.filter (fun c => c.id == e.classId &&
      (match tid with | none => true | some t => c.teacherId == t))).map
      (fun c => EnrollmentWithClass.mk e c))

/-! ## Theorems -/

/-- The threshold table restricted to finite percentages, as a chain of
rational comparisons; proved equal to `getLetterGrade` below and used to
reason about the table. -/
def letterQ (q : ℚ) : String :=
  if 97 ≤ q then "A+" else
  if 93 ≤ q then "A" else
  if 90 ≤ q then "A-" else
  if 87 ≤ q then "B+" else
  if 83 ≤ q then "B" else
  if 80 ≤ q then "B-" else
  if 77 ≤ q then "C+" else
  if 73 ≤ q then "C" else
  if 70 ≤ q then "C-" else
  if 67 ≤ q then "D+" else
  if 63 ≤ q then "D" else
  if 60 ≤ q then "D-" else "F"

/-- On finite percentages `getLetterGrade` is the comparison chain. -/
lemma getLetterGrade_num (q : ℚ) : getLetterGrade (.num q) = letterQ q := by
  simp [getLetterGrade, letterQ, JSNum.geC]

/-- Every rational falls in exactly one interval of the table; in each,
`letterQ` takes the corresponding letter. -/
lemma letterQ_cases (q : ℚ) :
    (97 ≤ q ∧ letterQ q = "A+") ∨
    ((93 ≤ q ∧ q < 97) ∧ letterQ q = "A") ∨
    ((90 ≤ q ∧ q < 93) ∧ letterQ q = "A-") ∨
    ((87 ≤ q ∧ q < 90) ∧ letterQ q = "B+") ∨
    ((83 ≤ q ∧ q < 87) ∧ letterQ q = "B") ∨
    ((80 ≤ q ∧ q < 83) ∧ letterQ q = "B-") ∨
    ((77 ≤ q ∧ q < 80) ∧ letterQ q = "C+") ∨
    ((73 ≤ q ∧ q < 77) ∧ letterQ q = "C") ∨
    ((70 ≤ q ∧ q < 73) ∧ letterQ q = "C-") ∨
    ((67 ≤ q ∧ q < 70) ∧ letterQ q = "D+") ∨
    ((63 ≤ q ∧ q < 67) ∧ letterQ q = "D") ∨
    ((60 ≤ q ∧ q < 63) ∧ letterQ q = "D-") ∨
    (q < 60 ∧ letterQ q = "F") := by
  unfold letterQ
  rcases le_or_lt 97 q with h1 | h1
  · exact Or.inl ⟨h1, if_pos h1⟩
  rcases le_or_lt 93 q with h2 | h2
  · exact Or.inr (Or.inl ⟨⟨h2, h1⟩, by
      rw [if_neg (by intro hc; linarith), if_pos h2]⟩)
  rcases le_or_lt 90 q with h3 | h3
  · exact Or.inr (Or.inr (Or.inl ⟨⟨h3, h2⟩, by
      rw [if_neg (by intro hc; linarith), if_neg (by intro hc; linarith), if_pos h3]⟩))
  rcases le_or_lt 87 q with h4 | h4
  · exact Or.inr (Or.inr (Or.inr (Or.inl ⟨⟨h4, h3⟩, by
      rw [if_neg (by intro hc; linarith), if_neg (by intro hc; linarith), if_neg (by intro hc; linarith), if_pos h4]⟩)))
  rcases le_or_lt 83 q with h5 | h5
  · exact Or.inr (Or.inr (Or.inr (Or.inr (Or.inl ⟨⟨h5, h4⟩, by
      rw [if_neg (by intro hc; linarith), if_neg (by intro hc; linarith), if_neg (by intro hc; linarith), if_neg (by intro hc; linarith), if_pos h5]⟩))))
  rcases le_or_lt 80 q with h6 | h6
  · exact Or.inr (Or.inr (Or.inr (Or.inr (Or.inr (Or.inl ⟨⟨h6, h5⟩, by
      rw [if_neg (by intro hc; linarith), if_neg (by intro hc; linarith), if_neg (by intro hc; linarith), if_neg (by intro hc; linarith), if_neg (by intro hc; linarith), if_pos h6]⟩)))))
  rcases le_or_lt 77 q with h7 | h7
  · exact Or.inr (Or.inr (Or.inr (Or.inr (Or.inr (Or.inr (Or.inl ⟨⟨h7, h6⟩, by
      rw [if_neg (by intro hc; linarith), if_neg (by intro hc; linarith), if_neg (by intro hc; linarith), if_neg (by intro hc; linarith), if_neg (by intro hc; linarith), if_neg (by intro hc; linarith), if_pos h7]⟩))))))
  rcases le_or_lt 73 q with h8 | h8
  · exact Or.inr (Or.inr (Or.inr (Or.inr (Or.inr (Or.inr (Or.inr (Or.inl ⟨⟨h8, h7⟩, by
      rw [if_neg (by intro hc; linarith), if_neg (by intro hc; linarith), if_neg (by intro hc; linarith), if_neg (by intro hc; linarith), if_neg (by intro hc; linarith), if_neg (by intro hc; linarith), if_neg (by intro hc; linarith), if_pos h8]⟩)))))))
  rcases le_or_lt 70 q with h9 | h9
  · exact Or.inr (Or.inr (Or.inr (Or.inr (Or.inr (Or.inr (Or.inr (Or.inr (Or.inl ⟨⟨h9, h8⟩, by
      rw [if_neg (by intro hc; linarith), if_neg (by intro hc; linarith), if_neg (by intro hc; linarith), if_neg (by intro hc; linarith), if_neg (by intro hc; linarith), if_neg (by intro hc; linarith), if_neg (by intro hc; linarith), if_neg (by intro hc; linarith), if_pos h9]⟩))))))))
  rcases le_or_lt 67 q with h10 | h10
  · exact Or.inr (Or.inr (Or.inr (Or.inr (Or.inr (Or.inr (Or.inr (Or.inr (Or.inr (Or.inl ⟨⟨h10, h9⟩, by
      rw [if_neg (by intro hc; linarith), if_neg (by intro hc; linarith), if_neg (by intro hc; linarith), if_neg (by intro hc; linarith), if_neg (by intro hc; linarith), if_neg (by intro hc; linarith), if_neg (by intro hc; linarith), if_neg (by intro hc; linarith), if_neg (by intro hc; linarith), if_pos h10]⟩)))))))))
  rcases le_or_lt 63 q with h11 | h11
  · exact Or.inr (Or.inr (Or.inr (Or.inr (Or.inr (Or.inr (Or.inr (Or.inr (Or.inr (Or.inr (Or.inl ⟨⟨h11, h10⟩, by
      rw [if_neg (by intro hc; linarith), if_neg (by intro hc; linarith), if_neg (by intro hc; linarith), if_neg (by intro hc; linarith), if_neg (by intro hc; linarith), if_neg (by intro hc; linarith), if_neg (by intro hc; linarith), if_neg (by intro hc; linarith), if_neg (by intro hc; linarith), if_neg (by intro hc; linarith), if_pos h11]⟩))))))))))
  rcases le_or_lt 60 q with h12 | h12
  · exact Or.inr (Or.inr (Or.inr (Or.inr (Or.inr (Or.inr (Or.inr (Or.inr (Or.inr (Or.inr (Or.inr (Or.inl ⟨⟨h12, h11⟩, by
      rw [if_neg (by intro hc; linarith), if_neg (by intro hc; linarith), if_neg (by intro hc; linarith), if_neg (by intro hc; linarith), if_neg (by intro hc; linarith), if_neg (by intro hc; linarith), if_neg (by intro hc; linarith), if_neg (by intro hc; linarith), if_neg (by intro hc; linarith), if_neg (by intro hc; linarith), if_neg (by intro hc; linarith), if_pos h12]⟩)))))))))))
  · exact Or.inr (Or.inr (Or.inr (Or.inr (Or.inr (Or.inr (Or.inr (Or.inr (Or.inr (Or.inr (Or.inr (Or.inr (⟨h12, by
      rw [if_neg (by intro hc; linarith), if_neg (by intro hc; linarith), if_neg (by intro hc; linarith), if_neg (by intro hc; linarith), if_neg (by intro hc; linarith), if_neg (by intro hc; linarith), if_neg (by intro hc; linarith), if_neg (by intro hc; linarith), if_neg (by intro hc; linarith), if_neg (by intro hc; linarith), if_neg (by intro hc; linarith), if_neg (by intro hc; linarith)]⟩))))))))))))

/-- Characterization of the threshold table on finite percentages: first
match from the highest threshold wins, so each letter corresponds to a
half-open interval, exact at every boundary. -/
lemma letter_table (q : ℚ) :
    (getLetterGrade (.num q) = "A+" ↔ 97 ≤ q) ∧
    (getLetterGrade (.num q) = "A" ↔ 93 ≤ q ∧ q < 97) ∧
    (getLetterGrade (.num q) = "A-" ↔ 90 ≤ q ∧ q < 93) ∧
    (getLetterGrade (.num q) = "B+" ↔ 87 ≤ q ∧ q < 90) ∧
    (getLetterGrade (.num q) = "B" ↔ 83 ≤ q ∧ q < 87) ∧
    (getLetterGrade (.num q) = "B-" ↔ 80 ≤ q ∧ q < 83) ∧
    (getLetterGrade (.num q) = "C+" ↔ 77 ≤ q ∧ q < 80) ∧
    (getLetterGrade (.num q) = "C" ↔ 73 ≤ q ∧ q < 77) ∧
    (getLetterGrade (.num q) = "C-" ↔ 70 ≤ q ∧ q < 73) ∧
    (getLetterGrade (.num q) = "D+" ↔ 67 ≤ q ∧ q < 70) ∧
    (getLetterGrade (.num q) = "D" ↔ 63 ≤ q ∧ q < 67) ∧
    (getLetterGrade (.num q) = "D-" ↔ 60 ≤ q ∧ q < 63) ∧
    (getLetterGrade (.num q) = "F" ↔ q < 60) := by
  rcases letterQ_cases q with ⟨h, heq⟩ |
    ⟨⟨hl, hu⟩, heq⟩ |
    ⟨⟨hl, hu⟩, heq⟩ |
    ⟨⟨hl, hu⟩, heq⟩ |
    ⟨⟨hl, hu⟩, heq⟩ |
    ⟨⟨hl, hu⟩, heq⟩ |
    ⟨⟨hl, hu⟩, heq⟩ |
    ⟨⟨hl, hu⟩, heq⟩ |
    ⟨⟨hl, hu⟩, heq⟩ |
    ⟨⟨hl, hu⟩, heq⟩ |
    ⟨⟨hl, hu⟩, heq⟩ |
    ⟨⟨hl, hu⟩, heq⟩ |
    ⟨h, heq⟩ <;>
  rw [getLetterGrade_num, heq] <;>
  refine ⟨?_, ?_, ?_, ?_, ?_, ?_, ?_, ?_, ?_, ?_, ?_, ?_, ?_⟩ <;>
    first
      | exact iff_of_true rfl (by linarith)
      | exact iff_of_true rfl ⟨by linarith, by linarith⟩
      | exact iff_of_false (by decide) (by intro hc; linarith)

/-- C1: for `totalPoints > 0` and a provided `pointsEarned`, `createGrade`
stores `percentage = pointsEarned / totalPoints * 100` exactly (no
clamping), and the letter grade is `getLetterGrade` of exactly that value,
which realizes the ordered threshold table with half-open intervals that are
exact at every boundary. -/
theorem createGrade_percentage_letter (db : DB) (g : InsertGrade) (a : Assignment) (p : ℚ)
    (hfind : db.assignments.find? (fun x => x.id == g.assignmentId) = some a)
    (hp : g.pointsEarned = some p) (ht : 0 < a.totalPoints) :
    (createGrade db g).2.percentage = some (.num (p / a.totalPoints * 100)) ∧
    (createGrade db g).2.letterGrade =
      some (getLetterGrade (.num (p / a.totalPoints * 100))) ∧
    (     (getLetterGrade (.num (p / a.totalPoints * 100)) = "A+" ↔ 97 ≤ p / a.totalPoints * 100) ∧
     (getLetterGrade (.num (p / a.totalPoints * 100)) = "A" ↔
        93 ≤ p / a.totalPoints * 100 ∧ p / a.totalPoints * 100 < 97) ∧
     (getLetterGrade (.num (p / a.totalPoints * 100)) = "A-" ↔
        90 ≤ p / a.totalPoints * 100 ∧ p / a.totalPoints * 100 < 93) ∧
     (getLetterGrade (.num (p / a.totalPoints * 100)) = "B+" ↔
        87 ≤ p / a.totalPoints * 100 ∧ p / a.totalPoints * 100 < 90) ∧
     (getLetterGrade (.num (p / a.totalPoints * 100)) = "B" ↔
        83 ≤ p / a.totalPoints * 100 ∧ p / a.totalPoints * 100 < 87) ∧
     (getLetterGrade (.num (p / a.totalPoints * 100)) = "B-" ↔
        80 ≤ p / a.totalPoints * 100 ∧ p / a.totalPoints * 100 < 83) ∧
     (getLetterGrade (.num (p / a.totalPoints * 100)) = "C+" ↔
        77 ≤ p / a.totalPoints * 100 ∧ p / a.totalPoints * 100 < 80) ∧
     (getLetterGrade (.num (p / a.totalPoints * 100)) = "C" ↔
        73 ≤ p / a.totalPoints * 100 ∧ p / a.totalPoints * 100 < 77) ∧
     (getLetterGrade (.num (p / a.totalPoints * 100)) = "C-" ↔
        70 ≤ p / a.totalPoints * 100 ∧ p / a.totalPoints * 100 < 73) ∧
     (getLetterGrade (.num (p / a.totalPoints * 100)) = "D+" ↔
        67 ≤ p / a.totalPoints * 100 ∧ p / a.totalPoints * 100 < 70) ∧
     (getLetterGrade (.num (p / a.totalPoints * 100)) = "D" ↔
        63 ≤ p / a.totalPoints * 100 ∧ p / a.totalPoints * 100 < 67) ∧
     (getLetterGrade (.num (p / a.totalPoints * 100)) = "D-" ↔
        60 ≤ p / a.totalPoints * 100 ∧ p / a.totalPoints * 100 < 63) ∧
     (getLetterGrade (.num (p / a.totalPoints * 100)) = "F" ↔ p / a.totalPoints * 100 < 60)) := by
  have hne : a.totalPoints ≠ 0 := ne_of_gt ht
  refine ⟨?_, ?_, letter_table _⟩ <;>
    simp [createGrade, hfind, hp, jsDivQ, hne, JSNum.mul100, InsertGrade.toRow]

/-- Concrete instance for C1: an assignment worth 50 points and a grade of
48.5 points yields exactly 97% and the letter "A+". -/
theorem createGrade_percentage_letter_witness :
    (0:ℚ) < 50 ∧
    (createGrade ⟨[], [], [⟨"a1", "c1", 50⟩], [], []⟩
        ⟨"g1", "s1", "a1", some (97/2), none, none, 0⟩).2.percentage =
      some (.num 97) ∧
    (createGrade ⟨[], [], [⟨"a1", "c1", 50⟩], [], []⟩
        ⟨"g1", "s1", "a1", some (97/2), none, none, 0⟩).2.letterGrade =
      some "A+" := by
  have h := createGrade_percentage_letter ⟨[], [], [⟨"a1", "c1", 50⟩], [], []⟩
    ⟨"g1", "s1", "a1", some (97/2), none, none, 0⟩ ⟨"a1", "c1", 50⟩ (97/2)
    (by decide) rfl (by decide)
  have hq : (97:ℚ)/2 / 50 * 100 = 97 := by norm_num
  have hl : getLetterGrade (.num 97) = "A+" := by
    simp [getLetterGrade, JSNum.geC]
  refine ⟨by decide, ?_, ?_⟩
  · rw [h.1, hq]
  · rw [h.2.1, hq, hl]

/-- C3 counterexample: with an existing assignment whose `totalPoints` is
zero and `pointsEarned = 10`, `createGrade` does NOT leave the derived
fields unset: JavaScript division by zero makes the stored percentage
`Infinity` and the letter grade "A+". -/
theorem createGrade_zero_total_sets_fields :
    (createGrade ⟨[], [], [⟨"a1", "c1", 0⟩], [], []⟩
        ⟨"g1", "s1", "a1", some 10, none, none, 0⟩).2.percentage = some .posInf ∧
    (createGrade ⟨[], [], [⟨"a1", "c1", 0⟩], [], []⟩
        ⟨"g1", "s1", "a1", some 10, none, none, 0⟩).2.letterGrade = some "A+" := by
  decide

/-- C3 amended: the derived-field computation is skipped (fields left as
given, hence unset) only when the assignment row is missing; when the
assignment exists with `totalPoints = 0` and a positive `pointsEarned`, the
fields are instead set to `Infinity` / "A+". -/
theorem createGrade_skip_policy (db : DB) (g : InsertGrade) :
    (db.assignments.find? (fun a => a.id == g.assignmentId) = none →
      (createGrade db g).2.percentage = g.percentage ∧
      (createGrade db g).2.letterGrade = g.letterGrade) ∧
    (∀ a p, db.assignments.find? (fun x => x.id == g.assignmentId) = some a →
      a.totalPoints = 0 → g.pointsEarned = some p → 0 < p →
      (createGrade db g).2.percentage = some .posInf ∧
      (createGrade db g).2.letterGrade = some "A+") := by
  constructor
  · intro hnone
    simp [createGrade, hnone, InsertGrade.toRow]
  · intro a p ha htz hpe hpos
    have hdiv : jsDivQ p a.totalPoints = .posInf := by
      simp [jsDivQ, htz, hpos]
    simp [createGrade, ha, hpe, hdiv, JSNum.mul100, InsertGrade.toRow,
      getLetterGrade, JSNum.geC]

/-- Concrete instances for the amended C3: a missing assignment leaves both
fields unset; a zero-point assignment sets them to `Infinity` / "A+". -/
theorem createGrade_skip_policy_witness :
    ((createGrade ⟨[], [], [], [], []⟩
        ⟨"g1", "s1", "aX", some 10, none, none, 0⟩).2.percentage = none ∧
     (createGrade ⟨[], [], [], [], []⟩
        ⟨"g1", "s1", "aX", some 10, none, none, 0⟩).2.letterGrade = none) ∧
    ((createGrade ⟨[], [], [⟨"a2", "c1", 0⟩], [], []⟩
        ⟨"g2", "s2", "a2", some 7, none, none, 0⟩).2.percentage = some .posInf ∧
     (createGrade ⟨[], [], [⟨"a2", "c1", 0⟩], [], []⟩
        ⟨"g2", "s2", "a2", some 7, none, none, 0⟩).2.letterGrade = some "A+") := by
  constructor
  · exact (createGrade_skip_policy ⟨[], [], [], [], []⟩
      ⟨"g1", "s1", "aX", some 10, none, none, 0⟩).1 rfl
  · exact (createGrade_skip_policy ⟨[], [], [⟨"a2", "c1", 0⟩], [], []⟩
      ⟨"g2", "s2", "a2", some 7, none, none, 0⟩).2 ⟨"a2", "c1", 0⟩ 7
      (by decide) rfl rfl (by decide)

/-- C5 counterexample: the baseline `createGrade` does not fail on a
duplicate `(student, assignment)` pair — it inserts a second row for the
pair. -/
theorem createGrade_duplicate_inserts_second_row :
    ((createGrade
        ⟨[], [], [⟨"a1", "c1", 10⟩],
          [⟨"g0", "s1", "a1", none, none, none, 0⟩], []⟩
        ⟨"g1", "s1", "a1", none, none, none, 1⟩).1.grades.filter
      (fun r => r.studentId == "s1" && r.assignmentId == "a1")).length = 2 := by
  decide

/-- C5 amended: only the stricter revision rejects a duplicate
`(student, assignment)` pair, raising the integrity error before any
mutation; the baseline revision always appends the new row. -/
theorem createGradeStrict_rejects_duplicate (db : DB) (g : InsertGrade)
    (h : ∃ r ∈ db.grades, r.studentId = g.studentId ∧ r.assignmentId = g.assignmentId) :
    createGradeStrict db g =
      .error "Grade already exists for this student and assignment." ∧
    (createGrade db g).1.grades = db.grades ++ [(createGrade db g).2] := by
  obtain ⟨r, hr, h1, h2⟩ := h
  have hmem : r ∈ db.grades.filter
      (fun r => r.studentId == g.studentId && r.assignmentId == g.assignmentId) :=
    List.mem_filter.mpr ⟨hr, by simp [h1, h2]⟩
  have hlen : 0 < (db.grades.filter
      (fun r => r.studentId == g.studentId && r.assignmentId == g.assignmentId)).length :=
    List.length_pos.mpr (List.ne_nil_of_mem hmem)
  constructor
  · simp only [createGradeStrict]
    rw [if_pos hlen]
  · rfl

/-- Concrete instance for the amended C5: with one grade for the pair
("s1", "a1") already stored, the stricter `createGrade` raises the
integrity error. -/
theorem createGradeStrict_rejects_duplicate_witness :
    createGradeStrict
      ⟨[], [], [⟨"a1", "c1", 10⟩], [⟨"g0", "s1", "a1", none, none, none, 0⟩], []⟩
      ⟨"g1", "s1", "a1", none, none, none, 1⟩ =
      .error "Grade already exists for this student and assignment." := by
  exact (createGradeStrict_rejects_duplicate
    ⟨[], [], [⟨"a1", "c1", 10⟩], [⟨"g0", "s1", "a1", none, none, none, 0⟩], []⟩
    ⟨"g1", "s1", "a1", none, none, none, 1⟩
    ⟨⟨"g0", "s1", "a1", none, none, none, 0⟩, by simp, rfl, rfl⟩).1

/-- C8: when the `(studentId, classId)` pair is already enrolled (exactly
one row), the enrollment endpoint rejects the request with the integrity
error and no mutation happens, so `getStudentEnrollments` still reports
exactly one entry for that class. -/
theorem postEnrollment_rejects_duplicate (db : DB) (sid cid newId : String)
    (h : ((getStudentEnrollments db sid).filter (fun e => e.classId == cid)).length = 1) :
    postEnrollment db sid cid newId = .error "Student already enrolled in this class" ∧
    ((getStudentEnrollments db sid).filter (fun e => e.classId == cid)).length = 1 := by
  have hne : (getStudentEnrollments db sid).filter (fun e => e.classId == cid) ≠ [] := by
    intro h0
    rw [h0] at h
    simp at h
  obtain ⟨e, he⟩ := List.exists_mem_of_ne_nil _ hne
  have hany : (getStudentEnrollments db sid).any (fun e => e.classId == cid) = true :=
    List.any_eq_true.mpr ⟨e, (List.mem_filter.mp he).1, (List.mem_filter.mp he).2⟩
  refine ⟨?_, h⟩
  simp [postEnrollment, hany]

/-- Concrete instance for C8: student "s1" is enrolled once in class "c1";
re-enrolling is rejected and the single enrollment remains. -/
theorem postEnrollment_rejects_duplicate_witness :
    postEnrollment ⟨[], [], [], [], [⟨"e1", "s1", "c1"⟩]⟩ "s1" "c1" "e2" =
      .error "Student already enrolled in this class" ∧
    ((getStudentEnrollments ⟨[], [], [], [], [⟨"e1", "s1", "c1"⟩]⟩ "s1").filter
      (fun e => e.classId == "c1")).length = 1 := by
  exact postEnrollment_rejects_duplicate ⟨[], [], [], [], [⟨"e1", "s1", "c1"⟩]⟩
    "s1" "c1" "e2" (by decide)

/-- C7: `updateGrade` recomputes the derived fields iff `pointsEarned` is
part of the payload, and then from the assignment linked to the existing
grade row (payload `assignmentId` is never consulted).  Without
`pointsEarned`, the stored percentage/letter keep their prior values unless
explicitly supplied. -/
theorem updateGrade_recompute_policy (db : DB) (id : String) (p : UpdateGrade) (r : Grade)
    (hr : db.grades.find? (fun x => x.id == id) = some r) :
    (p.pointsEarned = none →
      ∃ g', (updateGrade db id p).2 = some g' ∧
        g'.percentage = p.percentage.getD r.percentage ∧
        g'.letterGrade = p.letterGrade.getD r.letterGrade) ∧
    (∀ pv a, p.pointsEarned = some pv →
      db.assignments.find? (fun x => x.id == r.assignmentId) = some a →
      ∃ g', (updateGrade db id p).2 = some g' ∧
        g'.percentage = some ((jsDivQ (jsNumber pv) a.totalPoints).mul100) ∧
        g'.letterGrade =
          some (getLetterGrade ((jsDivQ (jsNumber pv) a.totalPoints).mul100))) := by
  constructor
  · intro hpe
    refine ⟨applyGradeUpdate r p, ?_, rfl, rfl⟩
    simp [updateGrade, hpe, hr]
  · intro pv a hpe ha
    refine ⟨applyGradeUpdate r
      { p with
        percentage := some (some ((jsDivQ (jsNumber pv) a.totalPoints).mul100)),
        letterGrade := some (some (getLetterGrade ((jsDivQ (jsNumber pv) a.totalPoints).mul100))) },
      ?_, rfl, rfl⟩
    simp [updateGrade, hpe, hr, ha]

/-- Concrete instance for C7: updating the stored 45/50 grade to 48.5
points recomputes 97% / "A+" from the linked 50-point assignment, even
though the payload also carries a different `assignmentId`. -/
theorem updateGrade_recompute_policy_witness :
    (∃ g', (updateGrade
        ⟨[], [], [⟨"a1", "c1", 50⟩, ⟨"a2", "c1", 25⟩],
          [⟨"g1", "s1", "a1", some 45, some (.num 90), some "A-", 0⟩], []⟩
        "g1"
        { assignmentId := some "a2", pointsEarned := some (some (97/2)) }).2 = some g' ∧
      g'.percentage = some (.num 97) ∧ g'.letterGrade = some "A+") ∧
    (∃ g', (updateGrade
        ⟨[], [], [⟨"a1", "c1", 50⟩, ⟨"a2", "c1", 25⟩],
          [⟨"g1", "s1", "a1", some 45, some (.num 90), some "A-", 0⟩], []⟩
        "g1" { letterGrade := some (some "B") }).2 = some g' ∧
      g'.percentage = some (.num 90) ∧ g'.letterGrade = some "B") := by
  have hq : (jsDivQ (jsNumber (some ((97:ℚ)/2))) ((50:ℚ))).mul100 = .num 97 := by
    have h1 : jsNumber (some ((97:ℚ)/2)) = 97/2 := rfl
    rw [h1]
    have h2 : ((50:ℚ)) ≠ 0 := by norm_num
    simp only [jsDivQ, h2, if_false, JSNum.mul100]
    rw [show (97:ℚ)/2 / 50 * 100 = 97 by norm_num]
  have hl : getLetterGrade (.num 97) = "A+" := (letter_table 97).1.mpr (by norm_num)
  constructor
  · obtain ⟨g', h1, h2, h3⟩ := (updateGrade_recompute_policy
      ⟨[], [], [⟨"a1", "c1", 50⟩, ⟨"a2", "c1", 25⟩],
        [⟨"g1", "s1", "a1", some 45, some (.num 90), some "A-", 0⟩], []⟩
      "g1" { assignmentId := some "a2", pointsEarned := some (some (97/2)) }
      ⟨"g1", "s1", "a1", some 45, some (.num 90), some "A-", 0⟩ (by decide)).2
      (some (97/2)) ⟨"a1", "c1", 50⟩ rfl (by decide)
    exact ⟨g', h1, by rw [h2, hq], by rw [h3, hq, hl]⟩
  · obtain ⟨g', h1, h2, h3⟩ := (updateGrade_recompute_policy
      ⟨[], [], [⟨"a1", "c1", 50⟩, ⟨"a2", "c1", 25⟩],
        [⟨"g1", "s1", "a1", some 45, some (.num 90), some "A-", 0⟩], []⟩
      "g1" { letterGrade := some (some "B") }
      ⟨"g1", "s1", "a1", some 45, some (.num 90), some "A-", 0⟩ (by decide)).1 rfl
    exact ⟨g', h1, h2, h3⟩

/-- C9 counterexample: with no grades at all, the baseline dashboard
`averageGrade` is the letter grade "F" (the letter of 0), not an
absent/placeholder value. -/
theorem averageGradeBase_empty_is_F :
    averageGradeBase ⟨[], [], [], [], []⟩ none = "F" ∧
    averageGradeBase ⟨[], [], [], [], []⟩ none = getLetterGrade (.num 0) := by
  decide

/-- C9 amended: `averageGrade` is the letter grade of the mean of the
in-scope non-null grade percentages; with no in-scope percentages the
stricter revision returns the placeholder "-", while the baseline revision
letter-grades 0 and returns "F". -/
theorem dashboard_average_grade (db : DB) (tid : Option String) :
    (scopedPercentages db tid = [] →
      averageGradeBase db tid = "F" ∧ averageGradeStrict db tid = "-") ∧
    (∀ q, sqlAvg (scopedPercentages db tid) = some q →
      averageGradeBase db tid = getLetterGrade (.num q) ∧
      averageGradeStrict db tid = getLetterGrade (.num q)) := by
  constructor
  · intro h0
    have hnone : sqlAvg (scopedPercentages db tid) = none := by
      simp [sqlAvg, h0]
    constructor
    · have : averageGradeBase db tid = getLetterGrade (.num 0) := by
        simp [averageGradeBase, hnone]
      rw [this]
      exact (letter_table 0).2.2.2.2.2.2.2.2.2.2.2.2.mpr (by norm_num)
    · simp [averageGradeStrict, hnone]
  · intro q hq
    constructor
    · simp [averageGradeBase, hq]
    · simp [averageGradeStrict, hq]

/-- Concrete instances for the amended C9: no grades gives "F" (baseline)
and "-" (stricter); one 80% grade gives the letter of 80. -/
theorem dashboard_average_grade_witness :
    (averageGradeBase ⟨[], [⟨"c1", "t1"⟩], [⟨"a1", "c1", 10⟩], [], []⟩ none = "F" ∧
     averageGradeStrict ⟨[], [⟨"c1", "t1"⟩], [⟨"a1", "c1", 10⟩], [], []⟩ none = "-") ∧
    (averageGradeBase
        ⟨[], [⟨"c1", "t1"⟩], [⟨"a1", "c1", 10⟩],
          [⟨"g1", "s1", "a1", some 8, some (.num 80), some "B-", 0⟩], []⟩ none =
      getLetterGrade (.num 80) ∧
     averageGradeStrict
        ⟨[], [⟨"c1", "t1"⟩], [⟨"a1", "c1", 10⟩],
          [⟨"g1", "s1", "a1", some 8, some (.num 80), some "B-", 0⟩], []⟩ none =
      getLetterGrade (.num 80)) := by
  constructor
  · exact (dashboard_average_grade
      ⟨[], [⟨"c1", "t1"⟩], [⟨"a1", "c1", 10⟩], [], []⟩ none).1 (by decide)
  · refine (dashboard_average_grade
      ⟨[], [⟨"c1", "t1"⟩], [⟨"a1", "c1", 10⟩],
        [⟨"g1", "s1", "a1", some 8, some (.num 80), some "B-", 0⟩], []⟩ none).2 80 ?_
    have hs : scopedPercentages
        ⟨[], [⟨"c1", "t1"⟩], [⟨"a1", "c1", 10⟩],
          [⟨"g1", "s1", "a1", some 8, some (.num 80), some "B-", 0⟩], []⟩ none =
        [80] := by decide
    rw [hs]
    simp [sqlAvg]

/-- If a predicate holds for no element, the conditional rewrite map is the
identity. -/
lemma map_ite_eq_self {α : Type} (l : List α) (p : α → Bool) (f : α → α)
    (h : ∀ x ∈ l, p x = false) :
    (l.map fun x => if p x then f x else x) = l := by
  induction l with
  | nil => rfl
  | cons a t ih =>
    have ha := h a (List.mem_cons_self a t)
    simp [ha, ih fun x hx => h x (List.mem_cons_of_mem a hx)]

/-- C10: every update operation called with an id matching no row resolves
to an absent value without error, and leaves the database unchanged. -/
theorem update_missing_id_is_noop (db : DB) (gid sid cid aid : String)
    (pg : UpdateGrade) (ps : UpdateStudent) (pc : UpdateClass) (pa : UpdateAssignment)
    (hg : ∀ r ∈ db.grades, (r.id == gid) = false)
    (hs : ∀ r ∈ db.students, (r.id == sid) = false)
    (hc : ∀ r ∈ db.classes, (r.id == cid) = false)
    (ha : ∀ r ∈ db.assignments, (r.id == aid) = false) :
    updateGrade db gid pg = (db, none) ∧
    updateStudent db sid ps = (db, none) ∧
    updateClass db cid pc = (db, none) ∧
    updateAssignment db aid pa = (db, none) := by
  have hgf : db.grades.find? (fun r => r.id == gid) = none :=
    List.find?_eq_none.mpr (fun x hx => by simp [hg x hx])
  have hsf : db.students.find? (fun r => r.id == sid) = none :=
    List.find?_eq_none.mpr (fun x hx => by simp [hs x hx])
  have hcf : db.classes.find? (fun r => r.id == cid) = none :=
    List.find?_eq_none.mpr (fun x hx => by simp [hc x hx])
  have haf : db.assignments.find? (fun r => r.id == aid) = none :=
    List.find?_eq_none.mpr (fun x hx => by simp [ha x hx])
  refine ⟨?_, ?_, ?_, ?_⟩
  · cases hpe : pg.pointsEarned with
    | none =>
      simp only [updateGrade, hpe, hgf, Option.map_none']
      rw [map_ite_eq_self _ _ _ hg]
    | some pv =>
      simp only [updateGrade, hpe, hgf, Option.map_none']
      rw [map_ite_eq_self _ _ _ hg]
  · simp only [updateStudent, hsf, Option.map_none']
    rw [map_ite_eq_self _ _ _ hs]
  · simp only [updateClass, hcf, Option.map_none']
    rw [map_ite_eq_self _ _ _ hc]
  · simp only [updateAssignment, haf, Option.map_none']
    rw [map_ite_eq_self _ _ _ ha]

/-- Concrete instance for C10: updating ids that match nothing returns an
absent result and the database (one row per table) is untouched. -/
theorem update_missing_id_is_noop_witness :
    updateGrade ⟨[⟨"s1", "S1", "Ann", "Lee", none⟩], [⟨"c1", "t1"⟩], [⟨"a1", "c1", 10⟩],
        [⟨"g1", "s1", "a1", none, none, none, 0⟩], []⟩ "gX" {} =
      (⟨[⟨"s1", "S1", "Ann", "Lee", none⟩], [⟨"c1", "t1"⟩], [⟨"a1", "c1", 10⟩],
        [⟨"g1", "s1", "a1", none, none, none, 0⟩], []⟩, none) ∧
    updateStudent ⟨[⟨"s1", "S1", "Ann", "Lee", none⟩], [⟨"c1", "t1"⟩], [⟨"a1", "c1", 10⟩],
        [⟨"g1", "s1", "a1", none, none, none, 0⟩], []⟩ "sX" {} =
      (⟨[⟨"s1", "S1", "Ann", "Lee", none⟩], [⟨"c1", "t1"⟩], [⟨"a1", "c1", 10⟩],
        [⟨"g1", "s1", "a1", none, none, none, 0⟩], []⟩, none) := by
  have h := update_missing_id_is_noop
    ⟨[⟨"s1", "S1", "Ann", "Lee", none⟩], [⟨"c1", "t1"⟩], [⟨"a1", "c1", 10⟩],
      [⟨"g1", "s1", "a1", none, none, none, 0⟩], []⟩
    "gX" "sX" "cX" "aX" {} {} {} {}
    (by decide) (by decide) (by decide) (by decide)
  exact ⟨h.1, h.2.1⟩

/-- C2 (code bug): the `/api/grades` route builds a filters record whose
`teacherId` is set to the calling teacher, but `getGrades` never reads that
member: with the only class owned by teacher "B", the call scoped to
teacher "A" still returns teacher B's grade. -/
theorem getGrades_ignores_teacher_scope :
    (getGrades
        ⟨[⟨"s1", "S1", "Ann", "Lee", none⟩], [⟨"cB", "B"⟩], [⟨"a1", "cB", 10⟩],
          [⟨"g1", "s1", "a1", none, none, none, 5⟩], []⟩
        { teacherId := some "A" }).map (fun r => r.grade.id) = ["g1"] ∧
    (⟨[⟨"s1", "S1", "Ann", "Lee", none⟩], [⟨"cB", "B"⟩], [⟨"a1", "cB", 10⟩],
        [⟨"g1", "s1", "a1", none, none, none, 5⟩], []⟩ : DB).classes.all
      (fun c => c.teacherId == "B") = true := by
  decide

/-- `finitePercs` yields one value per grade. -/
lemma finitePercs_length (gs : List GradeWithAssignment) (qs : List ℚ)
    (h : finitePercs gs = some qs) : qs.length = gs.length := by
  induction gs generalizing qs with
  | nil =>
    simp only [finitePercs, Option.some.injEq] at h
    subst h
    rfl
  | cons g t ih =>
    cases hp : g.grade.percentage with
    | none => simp [finitePercs, hp] at h
    | some v =>
      cases v with
      | num q =>
        cases hrec : finitePercs t with
        | none => simp [finitePercs, hp, hrec] at h
        | some qs' =>
          simp only [finitePercs, hp, hrec, Option.some.injEq] at h
          subst h
          simp [ih qs' hrec]
      | posInf => simp [finitePercs, hp] at h
      | negInf => simp [finitePercs, hp] at h
      | nan => simp [finitePercs, hp] at h

/-- The accumulation loop of `currentGradeOf` over all-finite percentages is
a rational sum. -/
lemma foldl_add_finite (gs : List GradeWithAssignment) (qs : List ℚ) (a : ℚ)
    (h : finitePercs gs = some qs) :
    gs.foldl (fun (sum : JSNum) g => sum.add (orZero g.grade.percentage)) (.num a) =
      .num (a + qs.sum) := by
  induction gs generalizing qs a with
  | nil =>
    simp only [finitePercs, Option.some.injEq] at h
    subst h
    simp
  | cons g t ih =>
    cases hp : g.grade.percentage with
    | none => simp [finitePercs, hp] at h
    | some v =>
      cases v with
      | num q =>
        cases hrec : finitePercs t with
        | none => simp [finitePercs, hp, hrec] at h
        | some qs' =>
          simp only [finitePercs, hp, hrec, Option.some.injEq] at h
          subst h
          simp only [List.foldl_cons, hp]
          have horz : orZero (some (JSNum.num q)) = JSNum.num q := rfl
          have hadd : (JSNum.num a).add (JSNum.num q) = JSNum.num (a + q) := rfl
          rw [horz, hadd, ih qs' (a + q) hrec, List.sum_cons]
          congr 1
          ring
      | posInf => simp [finitePercs, hp] at h
      | negInf => simp [finitePercs, hp] at h
      | nan => simp [finitePercs, hp] at h

/-- `currentGradeOf` on a nonempty all-finite grade list rounds the mean and
letter-grades the unrounded mean. -/
lemma currentGradeOf_finite (gs : List GradeWithAssignment) (qs : List ℚ)
    (h : finitePercs gs = some qs) (hne : gs ≠ []) :
    currentGradeOf gs = some ⟨.num (⌊qs.sum / qs.length + 1/2⌋ : ℤ),
      getLetterGrade (.num (qs.sum / qs.length))⟩ := by
  have hlen := finitePercs_length gs qs h
  unfold currentGradeOf
  rw [if_neg (fun hc => hne (List.isEmpty_iff.mp hc))]
  rw [foldl_add_finite gs qs 0 h]
  have hl0 : gs.length ≠ 0 := fun hc => hne (List.length_eq_zero.mp hc)
  have hlq : ((gs.length : ℚ)) ≠ 0 := Nat.cast_ne_zero.mpr hl0
  simp only [JSNum.divQ, jsDivQ, hlq, if_false, JSNum.round, zero_add]
  rw [← hlen]

/-- Any view whose `currentGrade` is `currentGradeOf` of its own grade list
satisfies the claimed contract. -/
lemma currentGradeSpec_mk (sw : StudentWithGrades)
    (h : sw.currentGrade = currentGradeOf sw.grades) : currentGradeSpec sw := by
  constructor
  · intro h0
    rw [h, h0]
    rfl
  · intro qs hqs hne
    rw [h, currentGradeOf_finite sw.grades qs hqs hne]

/-- C4: every student view returned by `getStudent` or `getStudents` carries
the claimed `currentGrade` summary: absent for zero grades, otherwise the
rounded mean of the percentage values with the letter grade of the unrounded
mean. -/
theorem student_current_grade (db : DB) :
    (∀ id sw, getStudent db id = some sw → currentGradeSpec sw) ∧
    (∀ tid sq sw, sw ∈ getStudents db tid sq → currentGradeSpec sw) := by
  constructor
  · intro id sw hsw
    cases hfind : db.students.find? (fun s => s.id == id) with
    | none => simp [getStudent, hfind] at hsw
    | some s =>
      simp only [getStudent, hfind, Option.some.injEq] at hsw
      subst hsw
      exact currentGradeSpec_mk _ rfl
  · intro tid sq sw hsw
    unfold getStudents at hsw
    rw [List.mem_map] at hsw
    obtain ⟨p, hp, rfl⟩ := hsw
    exact currentGradeSpec_mk _ rfl

/-- Concrete instance for C4: a student with grade percentages 92, 78 and 85
gets `currentGrade.percentage = 85` and `letterGrade = "B"`. -/
theorem student_current_grade_witness :
    ∃ sw, getStudent
        ⟨[⟨"s1", "S1", "Ann", "Lee", none⟩], [],
          [⟨"a1", "c0", 100⟩, ⟨"a2", "c0", 100⟩, ⟨"a3", "c0", 100⟩],
          [⟨"g1", "s1", "a1", none, some (.num 92), none, 1⟩,
           ⟨"g2", "s1", "a2", none, some (.num 78), none, 2⟩,
           ⟨"g3", "s1", "a3", none, some (.num 85), none, 3⟩], []⟩ "s1" = some sw ∧
      sw.currentGrade = some ⟨.num 85, getLetterGrade (.num 85)⟩ ∧
      getLetterGrade (.num 85) = "B" := by
  refine ⟨_, rfl, ?_, (letter_table 85).2.2.2.2.1.mpr ⟨by norm_num, by norm_num⟩⟩
  have hspec := (student_current_grade
    ⟨[⟨"s1", "S1", "Ann", "Lee", none⟩], [],
      [⟨"a1", "c0", 100⟩, ⟨"a2", "c0", 100⟩, ⟨"a3", "c0", 100⟩],
      [⟨"g1", "s1", "a1", none, some (.num 92), none, 1⟩,
       ⟨"g2", "s1", "a2", none, some (.num 78), none, 2⟩,
       ⟨"g3", "s1", "a3", none, some (.num 85), none, 3⟩], []⟩).1 "s1" _ rfl
  have hcg := hspec.2 [92, 78, 85] rfl (by decide)
  rw [hcg]
  have h255 : ([92, 78, 85] : List ℚ).sum / (([92, 78, 85] : List ℚ).length : ℚ) = 85 := by
    simp only [List.sum_cons, List.sum_nil, List.length_cons, List.length_nil]
    norm_num
  rw [h255]
  norm_num

/-- Every row contributed by a student carries that student. -/
lemma rowsForStudent_student (db : DB) (s : Student) :
    ∀ r ∈ rowsForStudent db s, r.student = s := by
  intro r hr
  simp only [rowsForStudent] at hr
  split at hr
  · rw [List.mem_singleton] at hr
    subst hr
    rfl
  · rw [List.mem_flatMap] at hr
    obtain ⟨e, _, hr⟩ := hr
    split at hr
    · rw [List.mem_singleton] at hr
      subst hr
      rfl
    · rw [List.mem_map] at hr
      obtain ⟨c, _, rfl⟩ := hr
      rfl

/-- The left join always produces at least one row per student. -/
lemma rowsForStudent_ne_nil (db : DB) (s : Student) :
    rowsForStudent db s ≠ [] := by
  simp only [rowsForStudent]
  split
  · simp
  · rename_i hes
    intro hc
    rw [List.flatMap_eq_nil_iff] at hc
    have hne2 : List.filter (fun e => e.studentId == s.id) db.enrollments ≠ [] := by
      intro h0
      rw [h0] at hes
      exact hes rfl
    obtain ⟨e, he⟩ := List.exists_mem_of_ne_nil _ hne2
    have := hc e he
    revert this
    split
    · simp
    · rename_i hcs
      rw [List.map_eq_nil_iff]
      exact fun h0 => hcs (by simp [h0])

/-- Folding further rows of the student already grouped last only extends
that entry's enrollment list. -/
lemma foldl_insertRow_grow (rs : List SRow) (pre : List SEntry) (stu : Student)
    (ens : List EnrollmentWithClass)
    (hall : ∀ r ∈ rs, r.student.id = stu.id)
    (hpre : ∀ p ∈ pre, (p.student.id == stu.id) = false) :
    rs.foldl insertRow (pre ++ [⟨stu, ens⟩]) =
      pre ++ [⟨stu, ens ++ rs.flatMap enrollOf⟩] := by
  induction rs generalizing ens with
  | nil => simp
  | cons r rt ih =>
    have hr := hall r (List.mem_cons_self r rt)
    have hany : (pre ++ [(⟨stu, ens⟩ : SEntry)]).any
        (fun p => p.student.id == r.student.id) = true := by
      simp [List.any_append, hr]
    have hstep : insertRow (pre ++ [⟨stu, ens⟩]) r =
        pre ++ [⟨stu, ens ++ enrollOf r⟩] := by
      unfold insertRow
      rw [if_pos hany, List.map_append]
      congr 1
      · exact map_ite_eq_self pre _ _ (fun p hp => by rw [hr]; exact hpre p hp)
      · simp [hr]
    rw [List.foldl_cons, hstep,
      ih (ens ++ enrollOf r) (fun r' hr' => hall r' (List.mem_cons_of_mem r hr'))]
    simp [List.flatMap_cons, List.append_assoc]

/-- Grouping a concatenation of per-student row blocks produces one entry
per student with a nonempty block, holding the concatenated enrollment
entries of the block. -/
lemma foldl_insertRow_blocks (db : DB) (tid sq : Option String) (ss : List Student)
    (acc : List SEntry)
    (hnd : (ss.map Student.id).Nodup)
    (hdisj : ∀ p ∈ acc, ∀ s ∈ ss, (p.student.id == s.id) = false) :
    (ss.flatMap (fun s => (rowsForStudent db s).filter (rowCond tid sq))).foldl insertRow acc =
      acc ++ (ss.filter
          (fun s => !((rowsForStudent db s).filter (rowCond tid sq)).isEmpty)).map
        (fun s => ⟨s, ((rowsForStudent db s).filter (rowCond tid sq)).flatMap enrollOf⟩) := by
  induction ss generalizing acc with
  | nil => simp
  | cons s st ih =>
    have hndt : (st.map Student.id).Nodup := by
      rw [List.map_cons, List.nodup_cons] at hnd
      exact hnd.2
    have hsid : s.id ∉ st.map Student.id := by
      rw [List.map_cons, List.nodup_cons] at hnd
      exact hnd.1
    rw [List.flatMap_cons, List.foldl_append]
    cases hb : (rowsForStudent db s).filter (rowCond tid sq) with
    | nil =>
      rw [List.foldl_nil,
        ih acc hndt (fun p hp s' hs' => hdisj p hp s' (List.mem_cons_of_mem s hs'))]
      simp [hb]
    | cons r rb =>
      have hrstu : r.student = s :=
        rowsForStudent_student db s r
          (List.mem_of_mem_filter (by rw [hb]; exact List.mem_cons_self r rb))
      have hrbstu : ∀ r' ∈ rb, r'.student = s := fun r' hr' =>
        rowsForStudent_student db s r'
          (List.mem_of_mem_filter (by rw [hb]; exact List.mem_cons_of_mem r hr'))
      have hpre : ∀ p ∈ acc, (p.student.id == r.student.id) = false := by
        intro p hp
        rw [hrstu]
        exact hdisj p hp s (List.mem_cons_self s st)
      have hany : acc.any (fun p => p.student.id == r.student.id) = false := by
        rw [List.any_eq_false]
        intro p hp
        simp [hpre p hp]
      have hstep : insertRow acc r = acc ++ [⟨r.student, enrollOf r⟩] := by
        unfold insertRow
        rw [hany]
        simp
      rw [List.foldl_cons, hstep,
        foldl_insertRow_grow rb acc r.student (enrollOf r)
          (fun r' hr' => by rw [hrbstu r' hr', ← hrstu])
          hpre]
      have hdisj' : ∀ p ∈ acc ++ [⟨r.student, enrollOf r ++ rb.flatMap enrollOf⟩],
          ∀ s' ∈ st, (p.student.id == s'.id) = false := by
        intro p hp s' hs'
        rw [List.mem_append, List.mem_singleton] at hp
        rcases hp with hp | rfl
        · exact hdisj p hp s' (List.mem_cons_of_mem s hs')
        · show (r.student.id == s'.id) = false
          rw [hrstu]
          rw [beq_eq_false_iff_ne]
          intro hc
          exact hsid (hc ▸ List.mem_map_of_mem Student.id hs')
      have hih := ih (acc ++ [(⟨r.student, enrollOf r ++ rb.flatMap enrollOf⟩ : SEntry)])
        hndt hdisj'
      rw [hih]
      have hcond : (!((rowsForStudent db s).filter (rowCond tid sq)).isEmpty) = true := by
        rw [hb]
        rfl
      rw [List.append_assoc]
      congr 1
      rw [List.filter_cons, if_pos hcond, List.map_cons, hb]
      simp [hrstu, List.flatMap_cons, List.append_assoc]

/-- A row with a non-null class arises from a matching enrollment joined
with a matching class. -/
lemma rowsForStudent_cls_some (db : DB) (s : Student) (r : SRow) (c : Class)
    (hr : r ∈ rowsForStudent db s) (hc : r.cls = some c) :
    ∃ e, e ∈ db.enrollments ∧ e.studentId = s.id ∧
      c ∈ db.classes ∧ c.id = e.classId := by
  simp only [rowsForStudent] at hr
  split at hr
  · rw [List.mem_singleton] at hr
    subst hr
    simp at hc
  · rw [List.mem_flatMap] at hr
    obtain ⟨e, he, hr⟩ := hr
    have he' := List.mem_filter.mp he
    split at hr
    · rw [List.mem_singleton] at hr
      subst hr
      simp at hc
    · rw [List.mem_map] at hr
      obtain ⟨c', hc', heq⟩ := hr
      have hcc : c' = c := by
        have h2 := congrArg SRow.cls heq
        rw [hc] at h2
        simpa using h2
      subst hcc
      have hc'' := List.mem_filter.mp hc'
      exact ⟨e, he'.1, by simpa using he'.2, hc''.1, by simpa using hc''.2⟩

/-- Conversely, a matching enrollment joined with a matching class yields a
row of the left join. -/
lemma row_mem_rowsForStudent (db : DB) (s : Student) (e : Enrollment) (c : Class)
    (he : e ∈ db.enrollments) (hes : e.studentId = s.id)
    (hc : c ∈ db.classes) (hcid : c.id = e.classId) :
    (⟨s, some e, some c⟩ : SRow) ∈ rowsForStudent db s := by
  simp only [rowsForStudent]
  have hememb : e ∈ db.enrollments.filter (fun e => e.studentId == s.id) :=
    List.mem_filter.mpr ⟨he, by simp [hes]⟩
  rw [if_neg (fun hie => List.ne_nil_of_mem hememb (List.isEmpty_iff.mp hie))]
  rw [List.mem_flatMap]
  refine ⟨e, hememb, ?_⟩
  have hcmemb : c ∈ db.classes.filter (fun c => c.id == e.classId) :=
    List.mem_filter.mpr ⟨hc, by simp [hcid]⟩
  rw [if_neg (fun hie => List.ne_nil_of_mem hcmemb (List.isEmpty_iff.mp hie))]
  exact List.mem_map_of_mem _ hcmemb

/-- A student's filtered row block is nonempty exactly when the student
matches the search condition and the claimed teacher scope. -/
lemma block_isEmpty_iff (db : DB) (tid sq : Option String) (s : Student) :
    (!((rowsForStudent db s).filter (rowCond tid sq)).isEmpty) =
      (studentMatch sq s && teacherScopeOk db tid s) := by
  cases hm : studentMatch sq s with
  | false =>
    have hall : (rowsForStudent db s).filter (rowCond tid sq) = [] := by
      rw [List.filter_eq_nil_iff]
      intro r hr
      simp [rowCond, rowsForStudent_student db s r hr, hm]
    rw [hall]
    simp
  | true =>
    cases tid with
    | none =>
      have hself : (rowsForStudent db s).filter (rowCond none sq) = rowsForStudent db s := by
        apply List.filter_eq_self.mpr
        intro r hr
        simp [rowCond, rowsForStudent_student db s r hr, hm]
      rw [hself]
      simp [teacherScopeOk, List.isEmpty_eq_false.mpr (rowsForStudent_ne_nil db s)]
    | some t =>
      rw [Bool.eq_iff_iff]
      constructor
      · intro hne
        have hflt : (rowsForStudent db s).filter (rowCond (some t) sq) ≠ [] := by
          intro h0
          rw [h0] at hne
          simp at hne
        obtain ⟨r, hrf⟩ := List.exists_mem_of_ne_nil _ hflt
        have hrr := List.mem_filter.mp hrf
        have hcond := hrr.2
        rw [rowCond, Bool.and_eq_true] at hcond
        cases hcl : r.cls with
        | none =>
          rw [hcl] at hcond
          simp at hcond
        | some c =>
          rw [hcl] at hcond
          have hct : c.teacherId = t := by simpa using hcond.1
          obtain ⟨e, he, hes, hcls, hcid⟩ :=
            rowsForStudent_cls_some db s r c hrr.1 hcl
          rw [Bool.true_and, teacherScopeOk, List.any_eq_true]
          refine ⟨e, he, ?_⟩
          rw [Bool.and_eq_true, List.any_eq_true]
          exact ⟨by simp [hes], ⟨c, hcls, by simp [hcid, hct]⟩⟩
      · intro hsc
        rw [Bool.true_and, teacherScopeOk, List.any_eq_true] at hsc
        obtain ⟨e, he, hsc⟩ := hsc
        rw [Bool.and_eq_true, List.any_eq_true] at hsc
        obtain ⟨hes, c, hcls, hcc⟩ := hsc
        rw [Bool.and_eq_true] at hcc
        have hes' : e.studentId = s.id := by simpa using hes
        have hcid : c.id = e.classId := by simpa using hcc.1
        have hct : c.teacherId = t := by simpa using hcc.2
        have hrow := row_mem_rowsForStudent db s e c he hes' hcls hcid
        have hrowf : (⟨s, some e, some c⟩ : SRow) ∈
            (rowsForStudent db s).filter (rowCond (some t) sq) :=
          List.mem_filter.mpr ⟨hrow, by simp [rowCond, hm, hct]⟩
        simp [List.isEmpty_eq_false.mpr (List.ne_nil_of_mem hrowf)]

/-- Collecting the enrollment entries of a student's filtered left-join
rows: a row condition that depends only on the row's class (and holds never
for class-less rows) acts as a class filter. -/
lemma filter_flatMap_enrollOf (db : DB) (s : Student) (cond : SRow → Bool)
    (tc : Class → Bool)
    (hc : ∀ e c, cond ⟨s, some e, some c⟩ = tc c) :
    ((rowsForStudent db s).filter cond).flatMap enrollOf =
      (db.enrollments.filter (fun e => e.studentId == s.id)).flatMap (fun e =>
        ((db.classes.filter (fun c => c.id == e.classId)).filter tc).map
          (fun c => EnrollmentWithClass.mk e c)) := by
  simp only [rowsForStudent]
  split
  · rename_i hes
    rw [List.isEmpty_iff.mp hes, List.flatMap_nil, List.filter_singleton]
    cases cond ⟨s, none, none⟩ <;> rfl
  · rw [List.filter_flatMap, List.flatMap_assoc]
    congr 1
    funext e
    split
    · rename_i hcs
      rw [List.isEmpty_iff.mp hcs, List.filter_nil, List.map_nil,
        List.filter_singleton]
      cases cond ⟨s, some e, none⟩ <;> rfl
    · rw [List.filter_map, List.flatMap_map]
      have h1 : (cond ∘ fun c => (⟨s, some e, some c⟩ : SRow)) = tc :=
        funext fun c => hc e c
      rw [h1]
      have h2 : (fun c => enrollOf (⟨s, some e, some c⟩ : SRow)) =
          fun c => [EnrollmentWithClass.mk e c] := funext fun c => rfl
      rw [h2, ← List.map_eq_flatMap]

/-- For a student matching the search condition, the enrollment entries
collected from the filtered left-join rows are exactly the claim-side
scoped enrollments. -/
lemma block_enrolls_eq (db : DB) (tid sq : Option String) (s : Student)
    (hm : studentMatch sq s = true) :
    ((rowsForStudent db s).filter (rowCond tid sq)).flatMap enrollOf =
      scopedEnrollments db tid s.id := by
  cases tid with
  | none =>
    rw [filter_flatMap_enrollOf db s _ (fun _ => true)
      (fun e c => by simp [rowCond, hm])]
    simp only [scopedEnrollments, List.filter_true, Bool.and_true]
  | some t =>
    rw [filter_flatMap_enrollOf db s _ (fun c => c.teacherId == t)
      (fun e c => by simp [rowCond, hm])]
    simp only [scopedEnrollments]
    congr 1
    funext e
    rw [List.filter_filter]
    exact congrArg _ (List.filter_congr fun c _ => Bool.and_comm _ _)

/-- Grouping the filtered left-join rows yields one entry per matching
student, carrying the block's enrollment entries. -/
lemma groupRows_filteredRows (db : DB) (tid sq : Option String)
    (hnd : (db.students.map Student.id).Nodup) :
    groupRows ((joinedRows db).filter (rowCond tid sq)) =
      (db.students.filter
        (fun s => !((rowsForStudent db s).filter (rowCond tid sq)).isEmpty)).map
        (fun s => ⟨s, ((rowsForStudent db s).filter (rowCond tid sq)).flatMap enrollOf⟩) := by
  unfold groupRows joinedRows
  rw [List.filter_flatMap]
  exact foldl_insertRow_blocks db tid sq db.students [] hnd (by simp)

/-- C6: on a database whose student ids are unique, `getStudents` returns
exactly one view object per matching student (all students when no
`teacherId` is given), and each returned student's `enrollments` collection
is exactly that student's matching enrollment rows joined with their class
(the empty sequence when there are none). -/
theorem getStudents_grouping (db : DB) (tid sq : Option String)
    (hnd : (db.students.map Student.id).Nodup) :
    ((getStudents db tid sq).map (fun sw => sw.student) =
      db.students.filter (fun s => studentMatch sq s && teacherScopeOk db tid s)) ∧
    (∀ sw ∈ getStudents db tid sq,
      sw.enrollments = scopedEnrollments db tid sw.student.id) := by
  have hg := groupRows_filteredRows db tid sq hnd
  constructor
  · unfold getStudents
    rw [hg, List.map_map, List.map_map]
    have hid : (((fun sw => sw.student) ∘ enrich db) ∘
        (fun s => (⟨s, ((rowsForStudent db s).filter (rowCond tid sq)).flatMap enrollOf⟩ : SEntry))) =
        fun s => s := funext fun s => rfl
    rw [hid, List.map_id', List.filter_congr fun s _ => block_isEmpty_iff db tid sq s]
  · intro sw hsw
    unfold getStudents at hsw
    rw [hg, List.map_map, List.mem_map] at hsw
    obtain ⟨s, hs, rfl⟩ := hsw
    have hkeep := (List.mem_filter.mp hs).2
    rw [block_isEmpty_iff db tid sq s, Bool.and_eq_true] at hkeep
    exact block_enrolls_eq db tid sq s hkeep.1

/-- Concrete instance for C6: a student enrolled in three classes of one
teacher, with grades in two of them, yields one view object whose
enrollments are exactly the three enrollment rows. -/
theorem getStudents_grouping_witness :
    (((getStudents
        ⟨[⟨"s1", "S1", "Ann", "Lee", none⟩],
          [⟨"c1", "t1"⟩, ⟨"c2", "t1"⟩, ⟨"c3", "t1"⟩],
          [⟨"a1", "c1", 10⟩, ⟨"a2", "c2", 10⟩],
          [⟨"g1", "s1", "a1", none, some (.num 90), none, 1⟩,
           ⟨"g2", "s1", "a2", none, some (.num 80), none, 2⟩],
          [⟨"e1", "s1", "c1"⟩, ⟨"e2", "s1", "c2"⟩, ⟨"e3", "s1", "c3"⟩]⟩
        (some "t1") none).map (fun sw => sw.student)) =
      [⟨"s1", "S1", "Ann", "Lee", none⟩]) ∧
    (∀ sw ∈ getStudents
        ⟨[⟨"s1", "S1", "Ann", "Lee", none⟩],
          [⟨"c1", "t1"⟩, ⟨"c2", "t1"⟩, ⟨"c3", "t1"⟩],
          [⟨"a1", "c1", 10⟩, ⟨"a2", "c2", 10⟩],
          [⟨"g1", "s1", "a1", none, some (.num 90), none, 1⟩,
           ⟨"g2", "s1", "a2", none, some (.num 80), none, 2⟩],
          [⟨"e1", "s1", "c1"⟩, ⟨"e2", "s1", "c2"⟩, ⟨"e3", "s1", "c3"⟩]⟩
        (some "t1") none,
      sw.enrollments.length = 3) := by
  have h := getStudents_grouping
    ⟨[⟨"s1", "S1", "Ann", "Lee", none⟩],
      [⟨"c1", "t1"⟩, ⟨"c2", "t1"⟩, ⟨"c3", "t1"⟩],
      [⟨"a1", "c1", 10⟩, ⟨"a2", "c2", 10⟩],
      [⟨"g1", "s1", "a1", none, some (.num 90), none, 1⟩,
       ⟨"g2", "s1", "a2", none, some (.num 80), none, 2⟩],
      [⟨"e1", "s1", "c1"⟩, ⟨"e2", "s1", "c2"⟩, ⟨"e3", "s1", "c3"⟩]⟩
    (some "t1") none (by decide)
  refine ⟨?_, ?_⟩
  · rw [h.1]
    decide
  · intro sw hsw
    have hstu : sw.student = ⟨"s1", "S1", "Ann", "Lee", none⟩ := by
      have hmem : sw.student ∈ (getStudents
          ⟨[⟨"s1", "S1", "Ann", "Lee", none⟩],
            [⟨"c1", "t1"⟩, ⟨"c2", "t1"⟩, ⟨"c3", "t1"⟩],
            [⟨"a1", "c1", 10⟩, ⟨"a2", "c2", 10⟩],
            [⟨"g1", "s1", "a1", none, some (.num 90), none, 1⟩,
             ⟨"g2", "s1", "a2", none, some (.num 80), none, 2⟩],
            [⟨"e1", "s1", "c1"⟩, ⟨"e2", "s1", "c2"⟩, ⟨"e3", "s1", "c3"⟩]⟩
          (some "t1") none).map (fun sw => sw.student) :=
        List.mem_map_of_mem _ hsw
      rw [h.1] at hmem
      have hmem2 := (List.mem_filter.mp hmem).1
      simpa using hmem2
    rw [h.2 sw hsw, hstu]
    decide

end GradeTrack
